import Mathlib

/-!
Shallow embedding of the `filename` crate (src/lib.rs): resolving the
file-system path of an already-open handle, with one backend per target OS.
OS primitives (`read_link`, `fcntl(F_GETPATH)`, `GetFileInformationByHandleEx`)
are modelled as oracles: functions from the handle to the outcome the kernel
produced (return value, buffer contents written, last OS error).  Paths are
raw byte lists (`PathBuf` built from `OsStr` bytes / wide code units), and
OS errors are raw integer codes.
-/

namespace FilenameCrate

/-- The platform's raw OS error code (`errno` / `GetLastError`), as carried by
`io::Error::last_os_error()`. -/
abbrev OSError := Int

/-! ## Linux / Android backend (src/lib.rs lines 45-55) -/

/-- The string built by `format!("/proc/self/fd/{}", self.as_raw_fd())`:
`"/proc/self/fd/"` followed by the raw fd rendered in decimal. -/
def procSelfFd (fd : Int) : String := "/proc/self/fd/" ++ toString fd

/-- Linux/Android `Filename::file_name`: `Path::new(&format!(...)).read_link()`.
`readlink` is the kernel oracle: for a path string it yields the link target
bytes, or the OS error the read failed with. -/
def linuxFileName (readlink : String → Except OSError (List Nat)) (fd : Int) :
    Except OSError (List Nat) :=
  readlink (procSelfFd fd)

/-! ## macOS / iOS backend (src/lib.rs lines 57-78) -/

/-- `MAXPATHLEN`: the scratch buffer size of the macOS/iOS backend. -/
def MAXPATHLEN : Nat := 1024

/-- Outcome of the `libc::fcntl(fd, F_GETPATH, &mut buf)` call: the C return
value, the bytes the call left in the 1024-byte buffer, and the thread's last
OS error code at that point. -/
structure FcntlOutcome where
  ret : Int
  buf : List Nat
  lastOsError : OSError

/-- `buf.iter().position(|&b| b == 0)`: index of the first zero byte, if any. -/
def positionZero : List Nat → Option Nat
  | [] => none
  | b :: rest => if b = 0 then some 0 else (positionZero rest).map (· + 1)

/-- The success-path result construction of the macOS/iOS backend:
`let end = buf.iter().position(|&b| b == 0).unwrap_or(buf.len());`
then `&buf[..end]`. -/
def macosScan (buf : List Nat) : List Nat :=
  buf.take ((positionZero buf).getD buf.length)

/-- macOS/iOS `Filename::file_name`: issue the `F_GETPATH` fcntl; on the
sentinel return -1 surface `last_os_error`, otherwise build the path from the
bytes up to the first zero byte (the whole buffer when none). -/
def macosFileName (fcntl : Int → FcntlOutcome) (fd : Int) :
    Except OSError (List Nat) :=
  let o := fcntl fd
  if o.ret = -1 then .error o.lastOsError
  else .ok (macosScan o.buf)

/-! ## Windows backend (src/lib.rs lines 87-131) -/

/-- Size of the Windows scratch buffer `[0u8; 4096]`. -/
def WIN_BUF_SIZE : Nat := 4096

/-- Outcome of `GetFileInformationByHandleEx(handle, FileNameInfo, buf, 4096)`:
the BOOL return value (FALSE = 0 means failure), the buffer bytes after the
call (byte at each offset), and the thread's last OS error. -/
structure WinOutcome where
  ret : Int
  buf : Nat → Nat
  lastOsError : OSError

/-- Byte of the scratch buffer at offset `i` (bytes are u8, hence mod 256). -/
def byteAt (buf : Nat → Nat) (i : Nat) : Nat := buf i % 256

/-- `info.FileNameLength`: the little-endian u32 at offset 0 of the
`FILE_NAME_INFO` structure laid over the buffer. -/
def fileNameLength (buf : Nat → Nat) : Nat :=
  byteAt buf 0 + 256 * byteAt buf 1 + 65536 * byteAt buf 2
    + 16777216 * byteAt buf 3

/-- The `i`-th UTF-16 code unit of `info.FileName`, which starts at byte
offset 4 of the structure; a WCHAR is the little-endian u16 at bytes
`4 + 2*i` and `4 + 2*i + 1`. -/
def wcharAt (buf : Nat → Nat) (i : Nat) : Nat :=
  byteAt buf (4 + 2 * i) + 256 * byteAt buf (4 + 2 * i + 1)

/-- `slice::from_raw_parts(info.FileName.as_ptr(), len / size_of::<WCHAR>())`
for a reported byte length `len`: the slice of `len / 2` code units starting
at buffer offset 4.  The source performs this read unchecked; the read is
defined (`some`) exactly when the slice stays inside the 4096-byte buffer,
and an out-of-range reported length is undefined behavior, modelled `none`. -/
def winSliceAt (len : Nat) (buf : Nat → Nat) : Option (List Nat) :=
  if 4 + 2 * (len / 2) ≤ WIN_BUF_SIZE then
    some ((List.range (len / 2)).map (wcharAt buf))
  else none

/-- The wide-string slice the Windows backend builds on success: code-unit
count taken from the OS-reported `FileNameLength` with no clamping. -/
def winSlice (buf : Nat → Nat) : Option (List Nat) :=
  winSliceAt (fileNameLength buf) buf

/-- Windows `Filename::file_name`: issue the handle-information query; on the
FALSE (= 0) return surface `last_os_error`, otherwise reinterpret the buffer
as `FILE_NAME_INFO` and build the path from the reported-length slice. -/
def winFileName (query : Int → WinOutcome) (h : Int) :
    Except OSError (Option (List Nat)) :=
  let o := query h
  if o.ret = 0 then .error o.lastOsError
  else .ok (winSlice o.buf)

/-! ## Unified entry point (src/lib.rs lines 22-37) -/

/-- The public `file_name<T>(fd: &T)`: the body is `fd.file_name()` — it
forwards to the single trait impl `backend` present in the build, with no
logic of its own. -/
def file_name {α : Type} (backend : Int → Except OSError α) (fd : Int) :
    Except OSError α :=
  backend fd

/-- Two successive calls with the same handle and the same OS responses:
each call is a fresh evaluation with its own (modelled) scratch state. -/
def callTwice {α : Type} (f : Int → Except OSError α) (fd : Int) :
    Except OSError α × Except OSError α :=
  (f fd, f fd)

/-! ## Helper lemmas -/

/-- Taking up to the first zero byte (the backend's position/take idiom) is
exactly `takeWhile` on being nonzero. -/
theorem macosScan_eq_takeWhile (buf : List Nat) :
    macosScan buf = buf.takeWhile (fun b => b != 0) := by
  induction buf with
  | nil => rfl
  | cons b rest ih =>
    by_cases hb : b = 0
    · subst hb
      simp [macosScan, positionZero, List.takeWhile]
    · have hmap : ((positionZero rest).map (· + 1)).getD (rest.length + 1)
          = (positionZero rest).getD rest.length + 1 := by
        cases positionZero rest <;> rfl
      simp only [macosScan, positionZero, if_neg hb, List.length_cons, hmap,
        List.take_succ_cons, List.takeWhile]
      have hbne : (b != 0) = true := by simpa using hb
      rw [hbne]
      simpa [macosScan] using ih

/-! ## Claims -/

/-- C2: on Linux/Android, `file_name` reads the symlink
`/proc/self/fd/<fd-as-decimal>`; the kernel-reported target is returned
verbatim (so any " (deleted)" suffix is kept), and a failed read surfaces the
underlying OS error unchanged. -/
theorem linux_readlink_verbatim
    (readlink : String → Except OSError (List Nat)) (fd : Int) :
    linuxFileName readlink fd = readlink ("/proc/self/fd/" ++ toString fd) ∧
    (∀ t : List Nat, readlink (procSelfFd fd) = .ok t →
      linuxFileName readlink fd = .ok t) ∧
    (∀ e : OSError, readlink (procSelfFd fd) = .error e →
      linuxFileName readlink fd = .error e) := by
  refine ⟨rfl, ?_, ?_⟩ <;> intro x hx <;> simpa [linuxFileName] using hx

/-- Witness for C2: a concrete oracle whose target for fd 3 carries a
" (deleted)" suffix is returned verbatim, and a failing oracle's error code
is surfaced unchanged. -/
theorem linux_readlink_verbatim_witness :
    (fun s => if s = "/proc/self/fd/3" then Except.ok [47, 120, 32, 40, 100, 41]
      else Except.error (2 : OSError)) (procSelfFd 3)
        = .ok [47, 120, 32, 40, 100, 41] ∧
    linuxFileName (fun s => if s = "/proc/self/fd/3"
      then Except.ok [47, 120, 32, 40, 100, 41]
      else Except.error (2 : OSError)) 3 = .ok [47, 120, 32, 40, 100, 41] :=
  ⟨by rfl, (linux_readlink_verbatim _ 3).2.1 _ (by rfl)⟩

/-- C4: the unified entry point `file_name` forwards to the single active
backend and returns its result — `Ok` path or `Err` error — unchanged, for
each of the three backends. -/
theorem file_name_forwards
    (readlink : String → Except OSError (List Nat))
    (fcntl : Int → FcntlOutcome) (query : Int → WinOutcome) (fd h : Int) :
    file_name (linuxFileName readlink) fd = linuxFileName readlink fd ∧
    file_name (macosFileName fcntl) fd = macosFileName fcntl fd ∧
    file_name (winFileName query) h = winFileName query h :=
  ⟨rfl, rfl, rfl⟩

/-- C8: `file_name` is deterministic — two successive calls on the same
handle, given identical OS responses, return the same result, for each
backend; the model is a pure function of the handle and the OS outcome,
reflecting that each call uses only its own fresh stack buffer and no
shared mutable state. -/
theorem file_name_deterministic
    (readlink : String → Except OSError (List Nat))
    (fcntl : Int → FcntlOutcome) (query : Int → WinOutcome) (fd h : Int) :
    (callTwice (file_name (linuxFileName readlink)) fd).1
      = (callTwice (file_name (linuxFileName readlink)) fd).2 ∧
    (callTwice (file_name (macosFileName fcntl)) fd).1
      = (callTwice (file_name (macosFileName fcntl)) fd).2 ∧
    (callTwice (file_name (winFileName query)) h).1
      = (callTwice (file_name (winFileName query)) h).2 :=
  ⟨rfl, rfl, rfl⟩

/-- C3: on macOS/iOS, whenever the fcntl does not fail, the result path is
built from exactly the bytes before the first zero byte of the buffer, raw
and unvalidated; and when a full 1024-byte buffer holds no zero byte the
entire buffer is the string. -/
theorem macos_scan_first_zero
    (fcntl : Int → FcntlOutcome) (fd : Int)
    (hret : (fcntl fd).ret ≠ -1) :
    macosFileName fcntl fd
      = .ok ((fcntl fd).buf.takeWhile (fun b => b != 0)) ∧
    ((fcntl fd).buf.length = MAXPATHLEN → (∀ b ∈ (fcntl fd).buf, b ≠ 0) →
      macosFileName fcntl fd = .ok (fcntl fd).buf) := by
  constructor
  · simp [macosFileName, hret, macosScan_eq_takeWhile]
  · intro _ hnz
    have hall : (fcntl fd).buf.takeWhile (fun b => b != 0) = (fcntl fd).buf := by
      apply List.takeWhile_eq_self_iff.mpr
      intro a ha
      simpa using hnz a ha
    simp [macosFileName, hret, macosScan_eq_takeWhile, hall]

/-- Witness for C3: a buffer holding "/tmp\x00c" yields the path "/tmp" —
the bytes strictly before the first zero. -/
theorem macos_scan_first_zero_witness :
    ((fun _ : Int => FcntlOutcome.mk 0 [47, 116, 109, 112, 0, 99] 0) 5).ret ≠ -1 ∧
    macosFileName (fun _ : Int => FcntlOutcome.mk 0 [47, 116, 109, 112, 0, 99] 0) 5
      = .ok [47, 116, 109, 112] := by
  refine ⟨by decide, ?_⟩
  have h := (macos_scan_first_zero
    (fun _ : Int => FcntlOutcome.mk 0 [47, 116, 109, 112, 0, 99] 0) 5 (by decide)).1
  simpa using h

/-- C5: on macOS/iOS, `file_name` fails exactly when the fcntl returns the
sentinel -1, and the error surfaced is the last-reported OS error code. -/
theorem macos_error_iff_sentinel (fcntl : Int → FcntlOutcome) (fd : Int) :
    ((∃ e, macosFileName fcntl fd = .error e) ↔ (fcntl fd).ret = -1) ∧
    ((fcntl fd).ret = -1 →
      macosFileName fcntl fd = .error (fcntl fd).lastOsError) := by
  by_cases h : (fcntl fd).ret = -1 <;> simp [macosFileName, h]

/-- Witness for C5: a fcntl returning -1 with last OS error 7 makes
`file_name` surface exactly error 7. -/
theorem macos_error_iff_sentinel_witness :
    ((fun _ : Int => FcntlOutcome.mk (-1) [] 7) 0).ret = -1 ∧
    macosFileName (fun _ : Int => FcntlOutcome.mk (-1) [] 7) 0 = .error 7 :=
  ⟨by decide, (macos_error_iff_sentinel (fun _ : Int => FcntlOutcome.mk (-1) [] 7) 0).2
    (by decide)⟩

/-- C6: on Windows, `file_name` fails exactly when the query returns FALSE
(zero), and the error surfaced is the last-reported OS error code. -/
theorem win_error_iff_false (query : Int → WinOutcome) (h : Int) :
    ((∃ e, winFileName query h = .error e) ↔ (query h).ret = 0) ∧
    ((query h).ret = 0 →
      winFileName query h = .error (query h).lastOsError) := by
  by_cases hr : (query h).ret = 0 <;> simp [winFileName, hr]

/-- Witness for C6: a query returning FALSE with last OS error 5 makes
`file_name` surface exactly error 5. -/
theorem win_error_iff_false_witness :
    ((fun _ : Int => WinOutcome.mk 0 (fun _ => 0) 5) 2).ret = 0 ∧
    winFileName (fun _ : Int => WinOutcome.mk 0 (fun _ => 0) 5) 2 = .error 5 :=
  ⟨by decide, (win_error_iff_false (fun _ : Int => WinOutcome.mk 0 (fun _ => 0) 5) 2).2
    (by decide)⟩

/-- C7: a zero-length reported name yields `Ok` with an empty path on both
byte-buffer backends: first buffer byte zero on macOS/iOS, FileNameLength
zero on Windows; no error and no out-of-bounds read. -/
theorem zero_length_name_empty_path
    (fcntl : Int → FcntlOutcome) (query : Int → WinOutcome) (fd h : Int) :
    ((fcntl fd).ret ≠ -1 → (fcntl fd).buf.head? = some 0 →
      macosFileName fcntl fd = .ok []) ∧
    ((query h).ret ≠ 0 → fileNameLength (query h).buf = 0 →
      winFileName query h = .ok (some [])) := by
  constructor
  · intro hret hhead
    obtain ⟨rest, hbuf⟩ : ∃ rest, (fcntl fd).buf = 0 :: rest := by
      cases hb : (fcntl fd).buf with
      | nil => rw [hb] at hhead; simp at hhead
      | cons a rest =>
        rw [hb] at hhead
        simp at hhead
        exact ⟨rest, by rw [← hhead]⟩
    simp [macosFileName, hret, macosScan_eq_takeWhile, hbuf]
  · intro hret hlen
    simp [winFileName, hret, winSlice, hlen, winSliceAt, WIN_BUF_SIZE]

/-- Witness for C7: both the all-zero macOS buffer and a Windows buffer whose
length field is zero produce `Ok` with the empty path. -/
theorem zero_length_name_empty_path_witness :
    (((fun _ : Int => FcntlOutcome.mk 0 (0 :: List.replicate 1023 7) 3) 1).ret ≠ -1 ∧
      macosFileName (fun _ : Int => FcntlOutcome.mk 0 (0 :: List.replicate 1023 7) 3) 1
        = .ok []) ∧
    (((fun _ : Int => WinOutcome.mk 1 (fun _ => 0) 3) 2).ret ≠ 0 ∧
      winFileName (fun _ : Int => WinOutcome.mk 1 (fun _ => 0) 3) 2
        = .ok (some [])) := by
  have h := zero_length_name_empty_path
    (fun _ : Int => FcntlOutcome.mk 0 (0 :: List.replicate 1023 7) 3)
    (fun _ : Int => WinOutcome.mk 1 (fun _ => 0) 3) 1 2
  exact ⟨⟨by decide, h.1 (by decide) (by rfl)⟩, ⟨by decide, h.2 (by decide) (by rfl)⟩⟩

/-- C10: the Windows decode yields exactly `FileNameLength / 2` code units by
floor division; an odd reported length behaves exactly like the even length
one below it — the trailing byte is ignored, with no error and no change to
the bounds outcome. -/
theorem win_floor_division_units (len : Nat) (buf : Nat → Nat) :
    winSlice buf = winSliceAt (fileNameLength buf) buf ∧
    (∀ us, winSliceAt len buf = some us → us.length = len / 2) ∧
    (len % 2 = 1 → winSliceAt len buf = winSliceAt (len - 1) buf) := by
  refine ⟨rfl, ?_, ?_⟩
  · intro us hus
    unfold winSliceAt at hus
    split at hus
    · cases hus
      simp
    · cases hus
  · intro hodd
    have h2 : len / 2 = (len - 1) / 2 := by omega
    unfold winSliceAt
    rw [h2]

/-- Witness for C10: reported length 7 decodes exactly as length 6 does —
three code units, the seventh byte ignored. -/
theorem win_floor_division_units_witness :
    (7 : Nat) % 2 = 1 ∧
    winSliceAt 7 (fun _ => 65) = winSliceAt 6 (fun _ => 65) ∧
    (∀ us, winSliceAt 7 (fun _ => 65) = some us → us.length = 7 / 2) := by
  have h := win_floor_division_units 7 (fun _ => 65)
  exact ⟨by decide, h.2.2 (by decide), h.2.1⟩

/-- A post-call Windows buffer whose `FileNameLength` field reads 8192
(bytes 0..3 are 0x00 0x20 0x00 0x00), with all other bytes zero: an
out-of-range length a misbehaving OS layer could report. -/
def winBadBuf : Nat → Nat := fun i => if i = 1 then 32 else 0

/-- C1: evaluation at the failing input.  The Windows backend performs no
clamping: with a reported `FileNameLength` of 8192 it builds a slice of
8192/2 = 4096 code units spanning bytes 4..8196 of the 4096-byte buffer —
past the buffer's end, so the read is undefined (modelled `none`) instead of
being bounded by the buffer's remaining capacity. -/
theorem win_unclamped_length_oob :
    fileNameLength winBadBuf = 8192 ∧
    4 + 2 * (fileNameLength winBadBuf / 2) > WIN_BUF_SIZE ∧
    winSlice winBadBuf = none := by
  refine ⟨by rfl, by decide, ?_⟩
  rfl

/-- The caller's object: its native handle plus whatever other state it owns.
The trait bound (`AsRawFd` / `AsRawHandle`) exposes only the handle. -/
structure CallerObj (α : Type) where
  fd : Int
  payload : α

/-- The accessor `as_raw_fd()` / `as_raw_handle()`: reads the native handle
value and nothing else. -/
def asRawFd {α : Type} (obj : CallerObj α) : Int := obj.fd

/-- OS operations a backend could issue against a handle. -/
inductive OsOp where
  | readlinkAt (path : String)
  | fcntlGetPath (fd : Int)
  | getFileInfo (handle : Int)
  | closeFd (fd : Int)
  | dupFd (fd : Int)
deriving DecidableEq

/-- Whether an OS operation closes a handle. -/
def isClose : OsOp → Bool
  | .closeFd _ => true
  | _ => false

/-- Whether an OS operation duplicates a handle. -/
def isDup : OsOp → Bool
  | .dupFd _ => true
  | _ => false

/-- Linux/Android call on a caller object, with the trace of OS operations it
issues — `read_link` performs exactly one readlink on the `/proc` path — and
the borrowed object handed back as the call leaves it. -/
def linuxCall {α : Type} (readlink : String → Except OSError (List Nat))
    (obj : CallerObj α) :
    Except OSError (List Nat) × List OsOp × CallerObj α :=
  (linuxFileName readlink (asRawFd obj),
    [OsOp.readlinkAt (procSelfFd (asRawFd obj))], obj)

/-- macOS/iOS call on a caller object: one `fcntl(F_GETPATH)` on the raw fd. -/
def macosCall {α : Type} (fcntl : Int → FcntlOutcome) (obj : CallerObj α) :
    Except OSError (List Nat) × List OsOp × CallerObj α :=
  (macosFileName fcntl (asRawFd obj), [OsOp.fcntlGetPath (asRawFd obj)], obj)

/-- Windows call on a caller object: one `GetFileInformationByHandleEx` on
the raw handle. -/
def winCall {α : Type} (query : Int → WinOutcome) (obj : CallerObj α) :
    Except OSError (Option (List Nat)) × List OsOp × CallerObj α :=
  (winFileName query (asRawFd obj), [OsOp.getFileInfo (asRawFd obj)], obj)

/-- C9: every backend reads only the object's native handle value (two
objects with equal raw handles get identical results, whatever their other
state), hands the borrowed object back unchanged whether the call succeeds
or fails, and its OS trace is a single query — never a close, never a
duplication. -/
theorem file_name_reads_handle_only {α : Type}
    (readlink : String → Except OSError (List Nat))
    (fcntl : Int → FcntlOutcome) (query : Int → WinOutcome)
    (obj obj' : CallerObj α) (hfd : asRawFd obj = asRawFd obj') :
    (linuxCall readlink obj).1 = (linuxCall readlink obj').1 ∧
    (macosCall fcntl obj).1 = (macosCall fcntl obj').1 ∧
    (winCall query obj).1 = (winCall query obj').1 ∧
    (linuxCall readlink obj).2.2 = obj ∧
    (macosCall fcntl obj).2.2 = obj ∧
    (winCall query obj).2.2 = obj ∧
    (∀ op ∈ (linuxCall readlink obj).2.1 ++ (macosCall fcntl obj).2.1
        ++ (winCall query obj).2.1, isClose op = false ∧ isDup op = false) := by
  refine ⟨by simp [linuxCall, hfd], by simp [macosCall, hfd],
    by simp [winCall, hfd], rfl, rfl, rfl, ?_⟩
  intro op hop
  simp [linuxCall, macosCall, winCall] at hop
  rcases hop with h | h | h <;> subst h <;> exact ⟨rfl, rfl⟩

/-- Witness for C9: two objects sharing fd 3 but with different payloads get
the same Linux result, and the traced call returns the first object intact. -/
theorem file_name_reads_handle_only_witness :
    asRawFd (CallerObj.mk 3 (0 : Nat)) = asRawFd (CallerObj.mk 3 (99 : Nat)) ∧
    (linuxCall (fun _ => Except.ok [47]) (CallerObj.mk 3 (0 : Nat))).1
      = (linuxCall (fun _ => Except.ok [47]) (CallerObj.mk 3 (99 : Nat))).1 ∧
    (linuxCall (fun _ => Except.ok [47]) (CallerObj.mk 3 (0 : Nat))).2.2
      = CallerObj.mk 3 (0 : Nat) := by
  have h := file_name_reads_handle_only (fun _ => Except.ok [47])
    (fun _ : Int => FcntlOutcome.mk 0 [] 0) (fun _ : Int => WinOutcome.mk 1 (fun _ => 0) 0)
    (CallerObj.mk 3 (0 : Nat)) (CallerObj.mk 3 (99 : Nat)) (by rfl)
  exact ⟨rfl, h.1, h.2.2.2.1⟩

end FilenameCrate
